import Mathlib

/-!
Shallow embedding of the agentflow scheduling core
(src/agentflow/core/task.py, src/agentflow/core/orchestrator.py).

Python object mutation is modelled by explicit state passing: a method
that mutates `self` and returns a bool becomes a Lean function returning
`Bool × Task` (or `Bool × Task × TaskScheduler`).  `datetime.now()` is
modelled by an explicit `now : Nat` argument; only the presence of the
timestamps matters to the claims, never their values.  Python dicts that
the transitions touch (`context`, `result`) are modelled as association
lists with insertion order preserved, matching Python dict semantics.
-/

namespace AgentFlow

/-- Claim source: TaskStatus enum in src/agentflow/core/types.py. -/
inductive TaskStatus where
  | pending
  | ready
  | in_progress
  | completed
  | failed
  | blocked
  | cancelled
deriving DecidableEq, Repr

/-- AgentRole enum in src/agentflow/core/types.py. -/
inductive AgentRole where
  | project_manager
  | architect
  | backend_developer
  | frontend_developer
  | qa_engineer
  | devops_engineer
  | ui_ux_designer
  | data_engineer
  | security_engineer
deriving DecidableEq, Repr

/-- EventType enum in src/agentflow/core/types.py. -/
inductive EventType where
  | task_created
  | task_started
  | task_completed
  | task_failed
  | task_blocked
  | agent_started
  | agent_completed
  | agent_error
  | agent_request_help
  | collaboration_started
  | collaboration_completed
  | collaboration_conflict
  | project_started
  | project_completed
  | system_alert
  | performance_warning
deriving DecidableEq, Repr

/-- The `.value` string of each EventType member. -/
def EventType.value : EventType → String
  | .task_created => "task_created"
  | .task_started => "task_started"
  | .task_completed => "task_completed"
  | .task_failed => "task_failed"
  | .task_blocked => "task_blocked"
  | .agent_started => "agent_started"
  | .agent_completed => "agent_completed"
  | .agent_error => "agent_error"
  | .agent_request_help => "agent_request_help"
  | .collaboration_started => "collaboration_started"
  | .collaboration_completed => "collaboration_completed"
  | .collaboration_conflict => "collaboration_conflict"
  | .project_started => "project_started"
  | .project_completed => "project_completed"
  | .system_alert => "system_alert"
  | .performance_warning => "performance_warning"

/-- Set a key in a Python-dict-like association list (dict[k] = v). -/
def dictSet (d : List (String × String)) (k v : String) : List (String × String) :=
  if d.any (fun p => p.1 == k) then
    d.map (fun p => if p.1 == k then (k, v) else p)
  else
    d ++ [(k, v)]

/-- Remove a key (dict.pop(k, None)). -/
def dictRemove (d : List (String × String)) (k : String) : List (String × String) :=
  d.filter (fun p => !(p.1 == k))

/-- dict.update(other): set every key of `other` in `d`, in order. -/
def dictUpdate (d other : List (String × String)) : List (String × String) :=
  other.foldl (fun acc p => dictSet acc p.1 p.2) d

/-- The Task dataclass of src/agentflow/core/task.py, restricted to the
fields the state machine and the scheduler read or write.  `priority`
stores the numeric TaskPriority value (1 = low .. 5 = critical). -/
structure Task where
  task_id : String
  agent_role : AgentRole
  priority : Nat
  status : TaskStatus
  dependencies : List String
  assigned_agent_id : Option String
  started_at : Option Nat
  completed_at : Option Nat
  error_message : Option String
  context : List (String × String)
  result : List (String × String)
deriving DecidableEq, Repr

/-- Task.is_ready (task.py lines 64-70).  The body is
`self.status == TaskStatus.PENDING and all(dep in self._completed_dependencies
for dep in self.dependencies)`.  The attribute `_completed_dependencies` is
never assigned anywhere in the repository, so evaluating the membership test
raises AttributeError; that raise is modelled as `Except.error ()`.  Because
`and` short-circuits and `all` of an empty generator is True without
evaluating the element expression, the raise happens exactly when the status
is PENDING and the dependency list is non-empty. -/
def Task.is_ready (t : Task) : Except Unit Bool :=
  if t.status ≠ TaskStatus.pending then Except.ok false
  else if t.dependencies.isEmpty then Except.ok true
  else Except.error ()

/-- Task.start (task.py lines 102-113).  Only a PENDING task starts.
Python treats an empty-string agent_id as falsy and skips the assignment. -/
def Task.start (t : Task) (now : Nat) (agentId : Option String) : Bool × Task :=
  if t.status ≠ TaskStatus.pending then (false, t)
  else
    (true,
      { t with
        status := TaskStatus.in_progress
        started_at := some now
        assigned_agent_id :=
          match agentId with
          | some a => if a == "" then t.assigned_agent_id else some a
          | none => t.assigned_agent_id })

/-- Task.complete (task.py lines 115-126).  Only an IN_PROGRESS task
completes.  An empty result dict is falsy in Python and skipped. -/
def Task.complete (t : Task) (now : Nat) (res : Option (List (String × String))) :
    Bool × Task :=
  if t.status ≠ TaskStatus.in_progress then (false, t)
  else
    (true,
      { t with
        status := TaskStatus.completed
        completed_at := some now
        result :=
          match res with
          | some r => if r.isEmpty then t.result else dictUpdate t.result r
          | none => t.result })

/-- Task.fail (task.py lines 128-137).  Accepted from IN_PROGRESS or READY. -/
def Task.fail (t : Task) (now : Nat) (errorMessage : String) : Bool × Task :=
  if t.status ≠ TaskStatus.in_progress ∧ t.status ≠ TaskStatus.ready then (false, t)
  else
    (true,
      { t with
        status := TaskStatus.failed
        error_message := some errorMessage
        completed_at := some now })

/-- Task.block (task.py lines 139-147).  Rejected from COMPLETED, CANCELLED
and FAILED. -/
def Task.block (t : Task) (reason : String) : Bool × Task :=
  if t.status = TaskStatus.completed ∨ t.status = TaskStatus.cancelled ∨
      t.status = TaskStatus.failed then (false, t)
  else
    (true,
      { t with
        status := TaskStatus.blocked
        context := dictSet t.context "block_reason" reason })

/-- Task.unblock (task.py lines 149-157).  Evaluates `self.is_ready` while
the status is still BLOCKED, so the short-circuit in is_ready always yields
`ok false` there; the result type still propagates a potential raise so that
totality is a theorem, not an assumption. -/
def Task.unblock (t : Task) : Except Unit (Bool × Task) :=
  if t.status ≠ TaskStatus.blocked then Except.ok (false, t)
  else
    match t.is_ready with
    | Except.error e => Except.error e
    | Except.ok b =>
      Except.ok
        (true,
          { t with
            status := if b then TaskStatus.ready else TaskStatus.pending
            context := dictRemove t.context "block_reason" })

/-- Task.cancel (task.py lines 159-170).  Rejected only from COMPLETED and
CANCELLED; an empty reason string is falsy and not recorded. -/
def Task.cancel (t : Task) (now : Nat) (reason : String) : Bool × Task :=
  if t.status = TaskStatus.completed ∨ t.status = TaskStatus.cancelled then (false, t)
  else
    (true,
      { t with
        status := TaskStatus.cancelled
        completed_at := some now
        context :=
          if reason == "" then t.context
          else dictSet t.context "cancel_reason" reason })

/-- Task.add_dependency (task.py lines 172-177). -/
def Task.add_dependency (t : Task) (taskId : String) : Bool × Task :=
  if taskId ∉ t.dependencies ∧ taskId ≠ t.task_id then
    (true, { t with dependencies := t.dependencies ++ [taskId] })
  else (false, t)

/-- TaskScheduler state (orchestrator.py lines 21-27): the queue, the
per-role in-flight counters (a defaultdict(int), modelled as a total
function defaulting to 0), and the concurrency ceiling. -/
structure TaskScheduler where
  task_queue : List Task
  agent_loads : AgentRole → Int
  max_concurrent_tasks : Int

/-- A freshly constructed TaskScheduler. -/
def TaskScheduler.init : TaskScheduler :=
  { task_queue := [], agent_loads := fun _ => 0, max_concurrent_tasks := 3 }

/-- Pointwise update of the load counters at one role. -/
def bumpLoad (f : AgentRole → Int) (r : AgentRole) (v : Int) : AgentRole → Int :=
  fun x => if x = r then v else f x

/-- TaskScheduler.add_task (orchestrator.py lines 29-35): appends unless an
equal task is already queued (Python `in` uses dataclass field equality). -/
def TaskScheduler.add_task (s : TaskScheduler) (t : Task) : Bool × TaskScheduler :=
  if t ∈ s.task_queue then (false, s)
  else (true, { s with task_queue := s.task_queue ++ [t] })

/-- The eligibility test of get_ready_tasks (orchestrator.py lines 43-55):
status PENDING, every dependency in the completed set, and the role load
strictly below the ceiling.  The loop never touches agent_loads, so the
same snapshot is used for every task. -/
def readyCond (s : TaskScheduler) (completedTaskIds : List String) (t : Task) : Bool :=
  t.status == TaskStatus.pending &&
  t.dependencies.all (fun d => completedTaskIds.contains d) &&
  decide (s.agent_loads t.agent_role < s.max_concurrent_tasks)

/-- Stable insertion of a task into a priority-descending list (ties keep
the existing element first, matching Python stable sort with reverse=True). -/
def insertByPriorityDesc (t : Task) : List Task → List Task
  | [] => [t]
  | h :: rest =>
    if t.priority ≤ h.priority then h :: insertByPriorityDesc t rest
    else t :: h :: rest

/-- Stable sort by priority descending (ready_tasks.sort in orchestrator.py
line 60). -/
def sortByPriorityDesc (l : List Task) : List Task :=
  l.foldr insertByPriorityDesc []

/-- TaskScheduler.get_ready_tasks (orchestrator.py lines 37-61): flips every
eligible PENDING task to READY in the queue, and returns those tasks sorted
by priority descending. -/
def TaskScheduler.get_ready_tasks (s : TaskScheduler) (completedTaskIds : List String) :
    List Task × TaskScheduler :=
  let newQueue := s.task_queue.map
    (fun t => if readyCond s completedTaskIds t then { t with status := TaskStatus.ready } else t)
  let readyTasks := (s.task_queue.filter (readyCond s completedTaskIds)).map
    (fun t => { t with status := TaskStatus.ready })
  (sortByPriorityDesc readyTasks, { s with task_queue := newQueue })

/-- TaskScheduler.assign_task (orchestrator.py lines 63-69): runs Task.start
on the argument and increments the role counter only when start reported
true.  The (possibly mutated) task is returned alongside. -/
def TaskScheduler.assign_task (s : TaskScheduler) (t : Task) (now : Nat)
    (agentId : Option String) : Bool × Task × TaskScheduler :=
  let r := t.start now agentId
  if r.1 then
    (true, r.2,
      { s with agent_loads := bumpLoad s.agent_loads t.agent_role (s.agent_loads t.agent_role + 1) })
  else (false, r.2, s)

/-- TaskScheduler.complete_task (orchestrator.py lines 71-77): runs
Task.complete and, on success, sets the role counter to
max(0, counter - 1). -/
def TaskScheduler.complete_task (s : TaskScheduler) (t : Task) (now : Nat)
    (res : Option (List (String × String))) : Bool × Task × TaskScheduler :=
  let r := t.complete now res
  if r.1 then
    (true, r.2,
      { s with agent_loads := bumpLoad s.agent_loads t.agent_role (max 0 (s.agent_loads t.agent_role - 1)) })
  else (false, r.2, s)

/-- Replace the first queue element equal to `old` (Python mutates the very
object that sits in the queue; structural equality is the dataclass
notion of equality the queue membership test also uses). -/
def replaceFirstEq (q : List Task) (old new : Task) : List Task :=
  match q with
  | [] => []
  | h :: rest => if h = old then new :: rest else h :: replaceFirstEq rest old new

/-- One scheduler API call, for the reachability model of the session: the
coordinator populates the queue with add_task and then interleaves
get_ready_tasks, assign_task and complete_task. -/
inductive SchedOp where
  | addTask (t : Task)
  | getReady (completedTaskIds : List String)
  | assign (t : Task) (now : Nat) (agentId : Option String)
  | reportDone (t : Task) (now : Nat) (res : Option (List (String × String)))

/-- Effect of one scheduler API call on the scheduler state.  For assign and
reportDone the Python caller passes a task object; when that object is the
one aliased in the queue, the mutation is visible there, modelled by
replacing the first equal queue entry with the returned task. -/
def schedStep (s : TaskScheduler) (op : SchedOp) : TaskScheduler :=
  match op with
  | .addTask t => (s.add_task t).2
  | .getReady c => (s.get_ready_tasks c).2
  | .assign t now aid =>
    let r := s.assign_task t now aid
    if t ∈ s.task_queue then
      { r.2.2 with task_queue := replaceFirstEq r.2.2.task_queue t r.2.1 }
    else r.2.2
  | .reportDone t now res =>
    let r := s.complete_task t now res
    if t ∈ s.task_queue then
      { r.2.2 with task_queue := replaceFirstEq r.2.2.task_queue t r.2.1 }
    else r.2.2

/-- Run a sequence of scheduler API calls from a fresh scheduler. -/
def schedRun (ops : List SchedOp) : TaskScheduler :=
  ops.foldl schedStep TaskScheduler.init

/-- A scheduler state reachable during a session. -/
def SchedReachable (s : TaskScheduler) : Prop :=
  ∃ ops : List SchedOp, schedRun ops = s

/-- EventBus state (orchestrator.py lines 92-98): subscription patterns in
insertion order, each with its callback list in subscription order
(callbacks are modelled by opaque string identifiers), plus the bounded
history of published event-type strings. -/
structure EventBus where
  subscribers : List (String × List String)
  event_history : List String
  max_history : Nat

/-- A freshly constructed EventBus. -/
def EventBus.init : EventBus :=
  { subscribers := [], event_history := [], max_history := 1000 }

/-- Append a callback under a pattern, creating the pattern entry at the end
on first subscription (defaultdict insertion order). -/
def addSub : List (String × List String) → String → String → List (String × List String)
  | [], pat, cb => [(pat, [cb])]
  | (p, cbs) :: rest, pat, cb =>
    if p == pat then (p, cbs ++ [cb]) :: rest else (p, cbs) :: addSub rest pat cb

/-- EventBus.subscribe (orchestrator.py lines 100-103). -/
def EventBus.subscribe (b : EventBus) (pat cb : String) : EventBus :=
  { b with subscribers := addSub b.subscribers pat cb }

/-- Callback list of a pattern key (self.subscribers[pattern]). -/
def lookupSubs (subs : List (String × List String)) (pat : String) : List String :=
  match subs.find? (fun p => p.1 == pat) with
  | some p => p.2
  | none => []

/-- Character-level test that the first list starts with the second
(kernel-computable version of str.startswith). -/
def listStartsWith : List Char → List Char → Bool
  | _, [] => true
  | [], _ :: _ => false
  | a :: as, b :: bs => a == b && listStartsWith as bs

/-- str.startswith over the underlying character lists. -/
def strStartsWith (s stem : String) : Bool :=
  listStartsWith s.toList stem.toList

/-- str.endswith over the underlying character lists. -/
def strEndsWith (s suf : String) : Bool :=
  listStartsWith s.toList.reverse suf.toList.reverse

/-- pattern[:-1], dropping the final character. -/
def strDropLastChar (s : String) : String :=
  String.mk s.toList.dropLast

/-- The patterns_to_notify list built by EventBus.publish (orchestrator.py
lines 113-128): the exact key if present, then the wildcard key if present,
then every key ending in a star whose stem starts the event type.  Note the
wildcard key satisfies the third check as well, so it appears twice. -/
def EventBus.patternsToNotify (b : EventBus) (eventType : String) : List String :=
  let keys := b.subscribers.map Prod.fst
  (if keys.contains eventType then [eventType] else []) ++
  (if keys.contains "*" then ["*"] else []) ++
  keys.filter (fun p => strEndsWith p "*" && strStartsWith eventType (strDropLastChar p))

/-- EventBus.publish (orchestrator.py lines 105-139): appends the event to
the history, truncates to the last max_history entries, and invokes the
callbacks of every pattern in patterns_to_notify, in that order.  The
returned list records the callback invocations in order. -/
def EventBus.publish (b : EventBus) (eventType : String) : EventBus × List String :=
  let h := b.event_history ++ [eventType]
  let h2 := if h.length > b.max_history then h.drop (h.length - b.max_history) else h
  let invocations := (b.patternsToNotify eventType).flatMap (fun pat => lookupSubs b.subscribers pat)
  ({ b with event_history := h2 }, invocations)

/-- The derived success rate of AgentOrchestrator.execute_project
(orchestrator.py line 420): `len(completed_tasks) / len(tasks) if tasks
else 0`, over rationals since Python uses true division. -/
def sessionSuccessRate (completedTasks tasks : List String) : ℚ :=
  if tasks.isEmpty then 0
  else (completedTasks.length : ℚ) / (tasks.length : ℚ)

/-- The per-session record kept in AgentOrchestrator.sessions, restricted to
the fields stop_session and the claims touch. -/
structure SessionInfo where
  status : String
  tasks : List String
deriving DecidableEq, Repr

/-- AgentOrchestrator state restricted to session management: the sessions
map, the active-session id set, the scheduler holding the work items, and
the event bus. -/
structure Orchestrator where
  sessions : List (String × SessionInfo)
  active_sessions : List String
  scheduler : TaskScheduler
  event_bus : EventBus

/-- AgentOrchestrator.stop_session (orchestrator.py lines 582-598): when the
session id is known it sets the session status to "stopped", removes the id
from the active set, publishes a system_alert event and returns true;
otherwise it returns false.  It never touches the scheduler or any task. -/
def Orchestrator.stop_session (o : Orchestrator) (sessionId : String) :
    Bool × Orchestrator :=
  if (o.sessions.find? (fun p => p.1 == sessionId)).isSome then
    (true,
      { o with
        sessions := o.sessions.map
          (fun p => if p.1 == sessionId then (p.1, { p.2 with status := "stopped" }) else p)
        active_sessions := o.active_sessions.filter (fun x => !(x == sessionId))
        event_bus := (o.event_bus.publish "system_alert").1 })
  else (false, o)

/-! Concrete tasks used by counterexamples and witnesses. -/

/-- A fresh PENDING task with default (MEDIUM) priority and no dependencies. -/
def mkPending (tid : String) (role : AgentRole) : Task :=
  { task_id := tid, agent_role := role, priority := 2, status := TaskStatus.pending,
    dependencies := [], assigned_agent_id := none, started_at := none,
    completed_at := none, error_message := none, context := [], result := [] }

/-- A task sitting in READY, as get_ready_tasks leaves it. -/
def readyTask : Task :=
  { mkPending "r1" AgentRole.backend_developer with status := TaskStatus.ready }

/-- A task in IN_PROGRESS. -/
def ipTask : Task :=
  { mkPending "c1" AgentRole.architect with status := TaskStatus.in_progress }

/-- A task in COMPLETED. -/
def doneTask : Task :=
  { mkPending "d0" AgentRole.architect with status := TaskStatus.completed }

/-- A task in FAILED. -/
def failedTask : Task :=
  { mkPending "f1" AgentRole.qa_engineer with status := TaskStatus.failed }

/-- A COMPLETED task that still lists one dependency. -/
def depDoneTask : Task :=
  { mkPending "d1" AgentRole.qa_engineer with
    status := TaskStatus.completed
    dependencies := ["a"] }

/-- A task whose dependency list contains its own id, as a caller can build
directly (the Task constructor accepts any dependency list). -/
def selfDepTask : Task :=
  { mkPending "x" AgentRole.project_manager with dependencies := ["x"] }

/-- Claim C1, counterexample: for a work item in state READY, assign_task
returns false, the item stays READY, and the role counter stays 0 — the
claim says it should return true and move the item to IN_PROGRESS. -/
theorem assign_task_rejects_ready :
    (TaskScheduler.init.assign_task readyTask 0 none).1 = false ∧
    (TaskScheduler.init.assign_task readyTask 0 none).2.1.status = TaskStatus.ready ∧
    (TaskScheduler.init.assign_task readyTask 0 none).2.2.agent_loads
      AgentRole.backend_developer = 0 := by
  refine ⟨rfl, rfl, rfl⟩

/-- Claim C1, amended: assign_task succeeds exactly on a PENDING item — it
returns true, moves the item to IN_PROGRESS and increments the role
counter by one, leaving other role counters unchanged; on an item in any
other state (READY included) it returns false and leaves both the item and
the scheduler unchanged. -/
theorem assign_task_pending_only (s : TaskScheduler) (t : Task) (now : Nat)
    (aid : Option String) :
    (t.status = TaskStatus.pending →
      (s.assign_task t now aid).1 = true ∧
      (s.assign_task t now aid).2.1.status = TaskStatus.in_progress ∧
      (s.assign_task t now aid).2.2.agent_loads t.agent_role =
        s.agent_loads t.agent_role + 1 ∧
      ∀ r, r ≠ t.agent_role →
        (s.assign_task t now aid).2.2.agent_loads r = s.agent_loads r) ∧
    (t.status ≠ TaskStatus.pending →
      s.assign_task t now aid = (false, t, s)) := by
  constructor
  · intro h
    refine ⟨?_, ?_, ?_, ?_⟩ <;>
      simp [TaskScheduler.assign_task, Task.start, h, bumpLoad]
    intro r hr
    simp [hr]
  · intro h
    simp [TaskScheduler.assign_task, Task.start, h]

/-- Claim C1, witness: the amended theorem evaluated on a concrete PENDING
task and on the concrete READY task. -/
theorem assign_task_pending_only_witness :
    (TaskScheduler.init.assign_task (mkPending "p1" AgentRole.backend_developer) 0 none).1
      = true ∧
    TaskScheduler.init.assign_task readyTask 0 none
      = (false, readyTask, TaskScheduler.init) := by
  refine ⟨((assign_task_pending_only TaskScheduler.init
    (mkPending "p1" AgentRole.backend_developer) 0 none).1 (by decide)).1, ?_⟩
  exact (assign_task_pending_only TaskScheduler.init readyTask 0 none).2 (by decide)

/-- Claim C5, counterexample: FAILED is listed as terminal by the claim, but
cancel on a FAILED item returns true and moves it to CANCELLED. -/
theorem cancel_escapes_failed :
    (failedTask.cancel 0 "").1 = true ∧
    (failedTask.cancel 0 "").2.status = TaskStatus.cancelled := by
  refine ⟨rfl, rfl⟩

/-- Claim C5, amended: COMPLETED and CANCELLED are fully terminal — every
transition method returns false and leaves the item unchanged.  FAILED is
terminal for start, complete, fail, block and unblock, but cancel on a
FAILED item returns true and moves it to CANCELLED. -/
theorem terminal_states (t : Task) (now : Nat) (aid : Option String)
    (res : Option (List (String × String))) (msg reason : String) :
    ((t.status = TaskStatus.completed ∨ t.status = TaskStatus.cancelled) →
      t.start now aid = (false, t) ∧ t.complete now res = (false, t) ∧
      t.fail now msg = (false, t) ∧ t.block reason = (false, t) ∧
      t.unblock = Except.ok (false, t) ∧ t.cancel now reason = (false, t)) ∧
    (t.status = TaskStatus.failed →
      t.start now aid = (false, t) ∧ t.complete now res = (false, t) ∧
      t.fail now msg = (false, t) ∧ t.block reason = (false, t) ∧
      t.unblock = Except.ok (false, t) ∧
      (t.cancel now reason).1 = true ∧
      (t.cancel now reason).2.status = TaskStatus.cancelled) := by
  constructor
  · rintro (h | h) <;>
      refine ⟨?_, ?_, ?_, ?_, ?_, ?_⟩ <;>
      simp [Task.start, Task.complete, Task.fail, Task.block, Task.unblock,
        Task.cancel, h]
  · intro h
    refine ⟨?_, ?_, ?_, ?_, ?_, ?_, ?_⟩ <;>
      simp [Task.start, Task.complete, Task.fail, Task.block, Task.unblock,
        Task.cancel, h]

/-- Claim C5, witness: the amended theorem evaluated on the concrete
COMPLETED and FAILED tasks. -/
theorem terminal_states_witness :
    doneTask.cancel 0 "" = (false, doneTask) ∧
    (failedTask.cancel 0 "").1 = true := by
  refine ⟨((terminal_states doneTask 0 none none "" "").1 (Or.inl rfl)).2.2.2.2.2, ?_⟩
  exact ((terminal_states failedTask 0 none none "" "").2 rfl).2.2.2.2.2.1

/-- Claim C6, counterexample: a task whose dependency list contains its own
id is accepted by add_task on a fresh scheduler — the enqueue returns true
and the queue size becomes 1, where the claim says it is rejected and the
queue stays empty. -/
theorem self_dep_enqueue_accepted :
    selfDepTask.dependencies = [selfDepTask.task_id] ∧
    (TaskScheduler.init.add_task selfDepTask).1 = true ∧
    (TaskScheduler.init.add_task selfDepTask).2.task_queue.length = 1 := by
  refine ⟨rfl, rfl, rfl⟩

/-- Claim C6, amended: self-reference is rejected only by
Task.add_dependency (adding the task own id returns false and leaves the
dependency list unchanged); add_task performs no dependency validation, so
enqueueing a task constructed with a self-dependency into a fresh scheduler
succeeds and the queue size becomes 1. -/
theorem self_dependency_handling (t : Task) :
    t.add_dependency t.task_id = (false, t) ∧
    (TaskScheduler.init.add_task t).1 = true ∧
    (TaskScheduler.init.add_task t).2.task_queue = [t] := by
  refine ⟨?_, ?_, ?_⟩
  · simp [Task.add_dependency]
  · simp [TaskScheduler.add_task, TaskScheduler.init]
  · simp [TaskScheduler.add_task, TaskScheduler.init]

/-- Claim C7: complete_task on an item already in a terminal state returns
false and leaves both the item and the scheduler (the role counters
included) unchanged — no double decrement. -/
theorem complete_task_terminal_noop (s : TaskScheduler) (t : Task) (now : Nat)
    (res : Option (List (String × String)))
    (h : t.status = TaskStatus.completed ∨ t.status = TaskStatus.failed ∨
      t.status = TaskStatus.cancelled) :
    s.complete_task t now res = (false, t, s) := by
  have hne : t.status ≠ TaskStatus.in_progress := by
    rcases h with h | h | h <;> simp [h]
  simp [TaskScheduler.complete_task, Task.complete, hne]

/-- Claim C7, witness: a concrete first complete_task call succeeds, and the
second call on its result is the no-op the theorem promises. -/
theorem complete_task_terminal_noop_witness :
    (TaskScheduler.init.complete_task ipTask 0 none).2.2.complete_task
        (TaskScheduler.init.complete_task ipTask 0 none).2.1 1 none =
      (false, (TaskScheduler.init.complete_task ipTask 0 none).2.1,
        (TaskScheduler.init.complete_task ipTask 0 none).2.2) := by
  exact complete_task_terminal_noop _ _ 1 none (Or.inl (by decide))

/-- Claim C10, counterexample: a COMPLETED task with a non-empty dependency
list does not raise when is_ready is evaluated — the conjunction
short-circuits on the status test and returns false, where the claim says
every task with non-empty dependencies raises. -/
theorem is_ready_nonpending_total :
    depDoneTask.dependencies ≠ [] ∧ depDoneTask.is_ready = Except.ok false := by
  refine ⟨by decide, rfl⟩

/-- Claim C10, amended: is_ready raises (the attribute
_completed_dependencies it reads is never defined) exactly when the status
is PENDING and the dependency list is non-empty; with an empty dependency
list it returns true exactly when the status is PENDING, and with a
non-PENDING status it returns false regardless of the dependencies. -/
theorem is_ready_partiality (t : Task) :
    (t.dependencies = [] →
      t.is_ready = Except.ok (decide (t.status = TaskStatus.pending))) ∧
    (t.is_ready = Except.error () ↔
      t.status = TaskStatus.pending ∧ t.dependencies ≠ []) := by
  constructor
  · intro h
    by_cases hs : t.status = TaskStatus.pending <;>
      simp [Task.is_ready, hs, h]
  · by_cases hs : t.status = TaskStatus.pending
    · by_cases hd : t.dependencies = [] <;>
        simp [Task.is_ready, hs, hd, List.isEmpty_iff]
    · simp [Task.is_ready, hs]

/-- Claim C10, witness: the amended theorem evaluated on a concrete READY
task with no dependencies and on the concrete counterexample task. -/
theorem is_ready_partiality_witness :
    readyTask.is_ready = Except.ok false ∧
    ¬(depDoneTask.is_ready = Except.error ()) := by
  constructor
  · exact (is_ready_partiality readyTask).1 rfl
  · intro h
    exact absurd ((is_ready_partiality depDoneTask).2.mp h).1 (by decide)

/-- Claim C2: every transition request returns a boolean and never raises;
on an item not in an accepted source state the call returns false and
leaves the item unchanged.  Totality of unblock is a theorem because it is
the one method that reads is_ready, and the is_ready short-circuit fires
before the undefined attribute is touched. -/
theorem transition_requests_total (t : Task) (now : Nat) (aid : Option String)
    (res : Option (List (String × String))) (msg reason : String) :
    (t.status ≠ TaskStatus.pending → t.start now aid = (false, t)) ∧
    (t.status ≠ TaskStatus.in_progress → t.complete now res = (false, t)) ∧
    (t.status ≠ TaskStatus.in_progress ∧ t.status ≠ TaskStatus.ready →
      t.fail now msg = (false, t)) ∧
    (t.status = TaskStatus.completed ∨ t.status = TaskStatus.cancelled ∨
      t.status = TaskStatus.failed → t.block reason = (false, t)) ∧
    (t.status ≠ TaskStatus.blocked → t.unblock = Except.ok (false, t)) ∧
    (∃ p, t.unblock = Except.ok p) ∧
    (t.status = TaskStatus.completed ∨ t.status = TaskStatus.cancelled →
      t.cancel now reason = (false, t)) := by
  refine ⟨?_, ?_, ?_, ?_, ?_, ?_, ?_⟩
  · intro h; simp [Task.start, h]
  · intro h; simp [Task.complete, h]
  · intro h; simp [Task.fail, h.1, h.2]
  · rintro (h | h | h) <;> simp [Task.block, h]
  · intro h; simp [Task.unblock, h]
  · by_cases hb : t.status = TaskStatus.blocked
    · refine ⟨(true, { t with
        status := TaskStatus.pending
        context := dictRemove t.context "block_reason" }), ?_⟩
      simp [Task.unblock, Task.is_ready, hb]
    · exact ⟨(false, t), by simp [Task.unblock, hb]⟩
  · rintro (h | h) <;> simp [Task.cancel, h]

/-- Claim C2, witness: the theorem evaluated on a READY item (start
rejected), a COMPLETED item (cancel rejected) and a PENDING item (unblock
rejected without raising). -/
theorem transition_requests_total_witness :
    readyTask.start 0 none = (false, readyTask) ∧
    doneTask.cancel 0 "" = (false, doneTask) ∧
    (mkPending "p0" AgentRole.project_manager).unblock =
      Except.ok (false, mkPending "p0" AgentRole.project_manager) := by
  refine ⟨?_, ?_, ?_⟩
  · exact (transition_requests_total readyTask 0 none none "" "").1 (by decide)
  · exact (transition_requests_total doneTask 0 none none "" "").2.2.2.2.2.2 (Or.inl rfl)
  · exact (transition_requests_total (mkPending "p0" AgentRole.project_manager)
      0 none none "" "").2.2.2.2.1 (by decide)

/-- One callback subscribed under the wildcard pattern. -/
def starBus : EventBus := EventBus.init.subscribe "*" "cb"

/-- Claim C3, counterexample: with a single callback subscribed under the
wildcard pattern, publishing one event invokes that callback twice, not at
most once — the wildcard branch and the trailing-star branch of publish
both add the "*" key to patterns_to_notify. -/
theorem wildcard_double_delivery :
    (starBus.publish "task_completed").2 = ["cb", "cb"] ∧
    ¬((starBus.publish "task_completed").2.count "cb" ≤ 1) := by
  refine ⟨rfl, by decide⟩

/-- Claim C3, amended: for every event type, a callback subscribed only
under the wildcard pattern is invoked exactly twice per published event,
and a callback subscribed only under the exact event-type name is invoked
exactly once. -/
theorem publish_invocation_counts (e : EventType) (cb : String) :
    ((EventBus.init.subscribe "*" cb).publish e.value).2 = [cb, cb] ∧
    ((EventBus.init.subscribe e.value cb).publish e.value).2 = [cb] := by
  cases e <;> exact ⟨rfl, rfl⟩

/-- Claim C4, counterexample: the session over an empty work-item set
reports success rate 0, not the claimed 1.0. -/
theorem success_rate_empty_is_zero :
    sessionSuccessRate [] [] = 0 ∧ sessionSuccessRate [] [] ≠ 1 := by
  refine ⟨rfl, ?_⟩
  norm_num [sessionSuccessRate]

/-- Claim C4, amended: the success rate equals the completed count divided
by the total count when the task set is non-empty, and is 0 for the
zero-total session. -/
theorem success_rate_formula (completed tasks : List String) :
    (tasks ≠ [] →
      sessionSuccessRate completed tasks =
        (completed.length : ℚ) / (tasks.length : ℚ)) ∧
    (tasks = [] → sessionSuccessRate completed tasks = 0) := by
  constructor
  · intro h
    simp [sessionSuccessRate, h]
  · intro h
    subst h
    simp [sessionSuccessRate]

/-- Claim C4, witness: the amended theorem evaluated on one completed item
out of two. -/
theorem success_rate_formula_witness :
    sessionSuccessRate ["a"] ["a", "b"] = (1 : ℚ) / 2 := by
  have h := (success_rate_formula ["a"] ["a", "b"]).1 (by simp)
  simpa using h

/-- Non-negativity of every role counter of a scheduler state. -/
def loadsNonneg (s : TaskScheduler) : Prop :=
  ∀ r : AgentRole, 0 ≤ s.agent_loads r

/-- assign_task keeps the counters non-negative. -/
theorem assign_task_loads_nonneg (s : TaskScheduler) (t : Task) (now : Nat)
    (aid : Option String) (h : loadsNonneg s) :
    loadsNonneg (s.assign_task t now aid).2.2 := by
  intro r
  by_cases hs : (t.start now aid).1 = true
  · simp only [TaskScheduler.assign_task, hs, if_true, bumpLoad]
    split
    · have := h t.agent_role; omega
    · exact h r
  · simp only [TaskScheduler.assign_task, hs, if_false, Bool.false_eq_true]
    exact h r

/-- complete_task keeps the counters non-negative (the decrement is clamped
at zero). -/
theorem complete_task_loads_nonneg (s : TaskScheduler) (t : Task) (now : Nat)
    (res : Option (List (String × String))) (h : loadsNonneg s) :
    loadsNonneg (s.complete_task t now res).2.2 := by
  intro r
  by_cases hs : (t.complete now res).1 = true
  · simp only [TaskScheduler.complete_task, hs, if_true, bumpLoad]
    split
    · exact le_max_left 0 _
    · exact h r
  · simp only [TaskScheduler.complete_task, hs, if_false, Bool.false_eq_true]
    exact h r

/-- Every scheduler API call keeps the counters non-negative. -/
theorem schedStep_loads_nonneg (s : TaskScheduler) (op : SchedOp)
    (h : loadsNonneg s) : loadsNonneg (schedStep s op) := by
  cases op with
  | addTask t =>
    intro r
    simp only [schedStep, TaskScheduler.add_task]
    split
    · exact h r
    · exact h r
  | getReady c =>
    intro r
    simp only [schedStep]
    exact h r
  | assign t now aid =>
    intro r
    simp only [schedStep]
    split
    · exact assign_task_loads_nonneg s t now aid h r
    · exact assign_task_loads_nonneg s t now aid h r
  | reportDone t now res =>
    intro r
    simp only [schedStep]
    split
    · exact complete_task_loads_nonneg s t now res h r
    · exact complete_task_loads_nonneg s t now res h r

/-- Counter non-negativity is preserved along any call sequence. -/
theorem schedRun_loads_nonneg (ops : List SchedOp) :
    ∀ s : TaskScheduler, loadsNonneg s → loadsNonneg (ops.foldl schedStep s) := by
  induction ops with
  | nil => intro s h; exact h
  | cons op rest ih => intro s h; exact ih _ (schedStep_loads_nonneg s op h)

/-- Claim C8, amended: in every scheduler state reachable by a session
(any sequence of add_task, get_ready_tasks, assign_task, complete_task from
a fresh scheduler) each role counter is non-negative.  The ceiling part of
the claim fails: only get_ready_tasks consults the ceiling, assign_task
does not. -/
theorem scheduler_loads_nonneg (s : TaskScheduler) (h : SchedReachable s) :
    ∀ r : AgentRole, 0 ≤ s.agent_loads r := by
  obtain ⟨ops, rfl⟩ := h
  exact schedRun_loads_nonneg ops TaskScheduler.init (fun _ => le_refl 0)

/-- Claim C8, witness: the amended theorem evaluated at the fresh
scheduler. -/
theorem scheduler_loads_nonneg_witness :
    0 ≤ TaskScheduler.init.agent_loads AgentRole.project_manager :=
  scheduler_loads_nonneg TaskScheduler.init ⟨[], rfl⟩ AgentRole.project_manager

/-- Four PENDING items of one role enqueued and then assigned directly:
assign_task checks only the status, never the ceiling. -/
def overloadOps : List SchedOp :=
  [SchedOp.addTask (mkPending "t1" AgentRole.backend_developer),
   SchedOp.addTask (mkPending "t2" AgentRole.backend_developer),
   SchedOp.addTask (mkPending "t3" AgentRole.backend_developer),
   SchedOp.addTask (mkPending "t4" AgentRole.backend_developer),
   SchedOp.assign (mkPending "t1" AgentRole.backend_developer) 0 none,
   SchedOp.assign (mkPending "t2" AgentRole.backend_developer) 1 none,
   SchedOp.assign (mkPending "t3" AgentRole.backend_developer) 2 none,
   SchedOp.assign (mkPending "t4" AgentRole.backend_developer) 3 none]

/-- The scheduler state reached by overloadOps. -/
def overloadState : TaskScheduler := schedRun overloadOps

/-- Claim C8, counterexample: a reachable scheduler state in which the
backend role counter is 4, strictly above the ceiling of 3 — assign_task
increments the counter for every PENDING item it is handed, without
re-checking the ceiling. -/
theorem assign_exceeds_ceiling :
    SchedReachable overloadState ∧
    overloadState.max_concurrent_tasks <
      overloadState.agent_loads AgentRole.backend_developer := by
  exact ⟨⟨overloadOps, rfl⟩, by decide⟩

/-- Mapping a session list through the stopping update keeps the stopped
session findable with status "stopped". -/
theorem find_map_stopped (sid : String) :
    ∀ l : List (String × SessionInfo),
      (l.find? (fun p => p.1 == sid)).isSome = true →
      (((l.map (fun p => if p.1 == sid then (p.1, { p.2 with status := "stopped" })
          else p)).find? (fun p => p.1 == sid)).map (fun p => p.2.status)) =
        some "stopped" := by
  intro l
  induction l with
  | nil => intro h; simp at h
  | cons a rest ih =>
    intro h
    rw [List.map_cons]
    by_cases hbeq : (a.1 == sid) = true
    · rw [if_pos hbeq]
      simp [List.find?, hbeq]
    · have hfalse : (a.1 == sid) = false := by
        cases hx : (a.1 == sid)
        · rfl
        · exact absurd hx hbeq
      rw [if_neg hbeq]
      have h2 : (rest.find? (fun p => p.1 == sid)).isSome = true := by
        simp only [List.find?, hfalse] at h
        exact h
      simp only [List.find?, hfalse]
      exact ih h2

/-- Claim C9, amended: stop_session on a known session id returns true,
marks the session status "stopped", removes the id from the active set and
leaves the scheduler — every work item state included — unchanged; it does
not cancel Pending or Ready items. -/
theorem stop_session_effect (o : Orchestrator) (sid : String)
    (h : (o.sessions.find? (fun p => p.1 == sid)).isSome = true) :
    (o.stop_session sid).1 = true ∧
    (o.stop_session sid).2.scheduler = o.scheduler ∧
    (((o.stop_session sid).2.sessions.find? (fun p => p.1 == sid)).map
      (fun p => p.2.status)) = some "stopped" ∧
    sid ∉ (o.stop_session sid).2.active_sessions := by
  refine ⟨?_, ?_, ?_, ?_⟩
  · simp [Orchestrator.stop_session, h]
  · simp [Orchestrator.stop_session, h]
  · simp only [Orchestrator.stop_session, h, if_true]
    exact find_map_stopped sid o.sessions h
  · simp [Orchestrator.stop_session, h, List.mem_filter]

/-- An orchestrator holding one executing session with one still-PENDING
work item. -/
def stopOrch : Orchestrator :=
  { sessions := [("s1", { status := "executing", tasks := ["t1"] })]
    active_sessions := ["s1"]
    scheduler := (TaskScheduler.init.add_task (mkPending "t1" AgentRole.project_manager)).2
    event_bus := EventBus.init }

/-- Claim C9, counterexample: stop_session on the session returns true, yet
the session work item that was PENDING is still PENDING afterwards, not
CANCELLED. -/
theorem stop_session_leaves_pending :
    (stopOrch.stop_session "s1").1 = true ∧
    (((stopOrch.stop_session "s1").2.sessions.find? (fun p => p.1 == "s1")).map
      (fun p => p.2.tasks)) = some ["t1"] ∧
    ((stopOrch.stop_session "s1").2.scheduler.task_queue.map Task.status) =
      [TaskStatus.pending] ∧
    TaskStatus.pending ≠ TaskStatus.cancelled := by
  refine ⟨rfl, rfl, rfl, by decide⟩

/-- Claim C9, witness: the amended theorem evaluated on the concrete
orchestrator. -/
theorem stop_session_effect_witness :
    (stopOrch.stop_session "s1").1 = true ∧
    (stopOrch.stop_session "s1").2.scheduler = stopOrch.scheduler := by
  have h := stop_session_effect stopOrch "s1" (by decide)
  exact ⟨h.1, h.2.1⟩

end AgentFlow
